import Mathlib

/-!
Verification of the tripple-thread triple store core against its source.

The embedding translates the TypeScript source under `src/`:
* `src/types/Triple.ts` — the `Triple` shape and `validateTriple`;
* `src/db/DatabaseManager.ts` — the storage layer (`addTriples`, `query`,
  `deleteGraph`, `clearAll`, `getTriples`, `init`, `backup`,
  `restoreFromBackup`);
* `src/graph/GraphManager.ts` — the façade (`addTriples` validation,
  `queryGraphs`);
* `src/utils/ConnectionPool.ts` — the pool (`acquire`, `release`,
  `withConnection`).

SQLite is modelled as a list of rows (the `triples` table, in insertion
order) plus, where a claim concerns engine I/O failures, an explicit
`fault : Option String` parameter standing for the `err` argument SQLite
passes to the node-sqlite3 callback (`none` = the engine reported success,
`some m` = the engine reported a failure with message `m`).
-/

/-- A triple as passed to the API (`src/types/Triple.ts`, interface
`Triple`): `graph` is optional and `_delete` is irrelevant to the claims
treated here.  In `getTriples` results the `graph` field is absent
(`none`) because the SQL selects only subject, predicate, object. -/
structure Triple where
  subject : String
  predicate : String
  object : String
  graph : Option String
  deriving DecidableEq

/-- A stored row of the `triples` table: all four columns are `TEXT NOT
NULL` (schema in `DatabaseManager.setupSchema`). -/
structure Row where
  subject : String
  predicate : String
  object : String
  graph : String
  deriving DecidableEq

/-- The `triples` table in storage order. -/
abbrev Table := List Row

/-- Errors surfaced to callers.  `databaseError` is the store's own
`DatabaseError` class (`src/types/Errors.ts`), `validationError` is
`ValidationError` (`src/types/Triple.ts`), and `engineError` is a raw
node-sqlite3 `Error` object that escaped without being wrapped. -/
inductive JsError where
  | databaseError (msg : String)
  | validationError (msg : String)
  | engineError (msg : String)
  deriving DecidableEq

/-- The `message` property of the underlying JS `Error`. -/
def JsError.message : JsError → String
  | .databaseError m => m
  | .validationError m => m
  | .engineError m => m

/-- Whether an error is the store's own `DatabaseError` type (what the
spec calls wrapping into `StoreError::OperationFailed`). -/
def JsError.isWrapped : JsError → Bool
  | .databaseError _ => true
  | _ => false

/-- The row inserted for a triple by `DatabaseManager.addTriples`: the
SQL binds `[triple.subject, triple.predicate, triple.object, graph]`
(line 198) — the *call's* graph parameter, not `triple.graph`. -/
def Triple.toRow (t : Triple) (g : String) : Row :=
  { subject := t.subject, predicate := t.predicate, object := t.object, graph := g }

/-- The message SQLite reports for a violation of the composite primary
key of `triples` (the table has `PRIMARY KEY (subject, predicate,
object, graph)` and the insert is a plain `INSERT`, not `INSERT OR
IGNORE`). -/
def uniqueViolationMsg : String :=
  "SQLITE_CONSTRAINT: UNIQUE constraint failed: triples.subject, triples.predicate, triples.object, triples.graph"

/-- One `stmt.run` of the prepared
`INSERT INTO triples (subject, predicate, object, graph) VALUES (?, ?, ?, ?)`:
SQLite rejects a row whose primary key (all four columns) already exists,
otherwise appends it.  Each statement auto-commits (the layer opens no
transaction). -/
def sqliteInsert (st : Table) (r : Row) : Except String Table :=
  if r ∈ st then .error uniqueViolationMsg
  else .ok (st ++ [r])

/-- `DatabaseManager.addTriples` (DatabaseManager.ts lines 185–214): runs
the prepared insert once per triple, sequentially, awaiting each; the
first engine error is wrapped as
`DatabaseError('Failed to add triple: ' + err.message)` and stops the
loop.  There is no `BEGIN`/`COMMIT`, so rows inserted before the failure
stay in the table: the function returns the table as mutated so far
together with the error, if any.  (`stmt.finalize` is modelled as always
succeeding.) -/
def DatabaseManager.addTriples (st : Table) (ts : List Triple) (g : String) :
    Table × Option JsError :=
  match ts with
  | [] => (st, none)
  | t :: rest =>
    match sqliteInsert st (t.toRow g) with
    | .ok st' => DatabaseManager.addTriples st' rest g
    | .error m => (st, some (.databaseError ("Failed to add triple: " ++ m)))

/-- JS truthiness of an optional string parameter: `undefined` and `''`
are falsy, every other string is truthy.  `DatabaseManager.query` appends
`AND col = ?` only when `if (param)` holds (lines 228–239). -/
def jsTruthy : Option String → Bool
  | none => false
  | some s => !s.isEmpty

/-- The per-column condition of the WHERE clause that
`DatabaseManager.query` builds: an exact match when the parameter is
truthy, no condition otherwise. -/
def truthyMatch (param : Option String) (v : String) : Bool :=
  match param with
  | none => true
  | some s => if s.isEmpty then true else v == s

/-- The row filter of the SQL that `DatabaseManager.query` executes:
`WHERE graph = ?` always, plus `AND subject = ?` / `AND predicate = ?` /
`AND object = ?` for each truthy parameter. -/
def queryFilter (st : Table) (s p o : Option String) (g : String) : List Row :=
  st.filter (fun r =>
    r.graph == g && truthyMatch s r.subject && truthyMatch p r.predicate
      && truthyMatch o r.object)

/-- `DatabaseManager.query` (lines 216–255): on an engine failure the
error is wrapped as `DatabaseError('Query failed: ' + message)`;
otherwise the rows matching the built filter are returned. -/
def DatabaseManager.query (st : Table) (s p o : Option String) (g : String)
    (fault : Option String) : Except JsError (List Row) :=
  match fault with
  | some m => .error (.databaseError ("Query failed: " ++ m))
  | none => .ok (queryFilter st s p o g)

/-- The filter the spec describes for `query` (§4.2): `graph` matches
exactly and each *provided* (non-absent) parameter must match exactly —
including a provided empty string.  This definition follows the spec's
words, for comparison with `DatabaseManager.query` above. -/
def specQuery (st : Table) (s p o : Option String) (g : String) : List Row :=
  st.filter (fun r =>
    r.graph == g
      && (match s with | none => true | some x => r.subject == x)
      && (match p with | none => true | some x => r.predicate == x)
      && (match o with | none => true | some x => r.object == x))

/-- `DatabaseManager.deleteGraph` (lines 257–271): engine failures are
caught and wrapped as `DatabaseError('Failed to delete graph: ' + message)`;
on success all rows of the graph are removed. -/
def DatabaseManager.deleteGraph (st : Table) (g : String) (fault : Option String) :
    Except JsError Table :=
  match fault with
  | some m => .error (.databaseError ("Failed to delete graph: " ++ m))
  | none => .ok (st.filter (fun r => !(r.graph == g)))

/-- `DatabaseManager.clearAll` (lines 273–282): the callback does
`if (err) reject(err)` with **no** surrounding try/catch or wrapping, so
an engine failure propagates as the raw engine error; on success every
row is removed. -/
def DatabaseManager.clearAll (_st : Table) (fault : Option String) :
    Except JsError Table :=
  match fault with
  | some m => .error (.engineError m)
  | none => .ok []

/-- `DatabaseManager.getTriples` (lines 300–313): executes
`SELECT subject, predicate, object FROM triples WHERE graph = ?` — the
`graph` column is **not** selected, so the returned row objects have no
`graph` property (`none` here).  The callback does `if (err) reject(err)`
without wrapping, so an engine failure propagates raw. -/
def DatabaseManager.getTriples (st : Table) (g : String) (fault : Option String) :
    Except JsError (List Triple) :=
  match fault with
  | some m => .error (.engineError m)
  | none => .ok ((st.filter (fun r => r.graph == g)).map
      (fun r => { subject := r.subject, predicate := r.predicate,
                  object := r.object, graph := none }))

/-- The body of the `forEach` in `GraphManager.queryGraphs`:
`if (triple.graph) graphs.add(triple.graph)` — a truthy (present,
non-empty) graph label is added to the set, modelled as first-occurrence
insertion order. -/
def collectGraph (acc : List String) (t : Triple) : List String :=
  match t.graph with
  | some g => if g.isEmpty || acc.contains g then acc else acc ++ [g]
  | none => acc

/-- `GraphManager.queryGraphs` (GraphManager.ts lines 29–38): calls
`this.db.getTriples()` — graph argument omitted, so the storage layer's
default `'default'` applies — then collects `triple.graph` into a `Set`
for each triple whose `graph` is truthy, returning the set in insertion
order.  (The fault-free engine path is taken; `getTriples` with
`fault = none` never errors.) -/
def GraphManager.queryGraphs (st : Table) : List String :=
  let triples :=
    match DatabaseManager.getTriples st "default" none with
    | .ok l => l
    | .error _ => []
  triples.foldl collectGraph []

/-- `validateTriple` (Triple.ts lines 126–138), parameterized by the
URI/literal validators `isValidUri` / `isValidLiteral` — regex-based
pure collaborators the spec lists as an external interface (§6).  Checks
subject, then predicate, then object, throwing `ValidationError` at the
first ill-formed field. -/
def validateTriple (validUri validLit : String → Bool) (t : Triple) : Option JsError :=
  if !validUri t.subject then
    some (.validationError ("Invalid subject URI: " ++ t.subject))
  else if !validUri t.predicate then
    some (.validationError ("Invalid predicate URI: " ++ t.predicate))
  else if !(validUri t.object || validLit t.object) then
    some (.validationError ("Invalid object (must be URI or literal): " ++ t.object))
  else none

/-- The first validation failure of a batch, as raised by
`triples.forEach(validateTriple)` (GraphManager.ts line 21): `forEach`
visits the list in order and the first throw aborts it. -/
def firstValidationError (validUri validLit : String → Bool) :
    List Triple → Option JsError
  | [] => none
  | t :: rest =>
    match validateTriple validUri validLit t with
    | some e => some e
    | none => firstValidationError validUri validLit rest

/-- `GraphManager.addTriples` (GraphManager.ts lines 20–23): validates
every triple of the batch first (`triples.forEach(validateTriple)`); a
throw aborts before `db.addTriples` is called, leaving the table
untouched; otherwise the batch is handed to the storage layer. -/
def GraphManager.addTriples (validUri validLit : String → Bool) (st : Table)
    (ts : List Triple) (g : String) : Table × Option JsError :=
  match firstValidationError validUri validLit ts with
  | some e => (st, some e)
  | none => DatabaseManager.addTriples st ts g

/-! ## Connection pool (`src/utils/ConnectionPool.ts`)

Connections are modelled as numeric ids.  `openCount` instruments the
model with the number of connections currently open (incremented by
`createConnection`, decremented by a successful `close`); the source
keeps no such counter — that is precisely what claim C3 is about.
Connection creation itself is modelled as succeeding (the pool's
fail-fast behaviour on an unreachable target is not at issue in the
claims treated here); `close` may fail, via an injected fault. -/

structure ConnectionPool where
  maxConnections : Nat
  available : List Nat
  initialized : Bool
  nextId : Nat
  openCount : Nat
  deriving DecidableEq

/-- The constructor (ConnectionPool.ts lines 13–18):
`maxConnections = options.maxPoolSize || 10`, so an absent or zero size
falls back to 10; the idle list starts empty and the pool
uninitialized. -/
def mkPool (maxPoolSize : Option Nat) : ConnectionPool :=
  { maxConnections :=
      match maxPoolSize with
      | none => 10
      | some 0 => 10
      | some n => n,
    available := [], initialized := false, nextId := 0, openCount := 0 }

/-- `ConnectionPool.initialize` (lines 20–42): idempotent; eagerly opens
`Math.min(3, maxConnections)` connections and pushes them onto the idle
list, then marks the pool initialized. -/
def ConnectionPool.initPool (ps : ConnectionPool) : ConnectionPool :=
  if ps.initialized then ps
  else
    let k := min 3 ps.maxConnections
    { ps with
      available := ps.available ++ (List.range k).map (fun i => ps.nextId + i),
      nextId := ps.nextId + k,
      openCount := ps.openCount + k,
      initialized := true }

/-- `ConnectionPool.acquire` (lines 76–90): initializes the pool if
needed; pops the last idle connection if one exists; **otherwise**
compares `this.availableConnections.length` (necessarily 0 at that
point) against `maxConnections` and, when below, opens a brand-new
connection; only when that comparison fails does it throw
`DatabaseError('No available connections in the pool')`. -/
def ConnectionPool.acquire (ps : ConnectionPool) :
    Except JsError (Nat × ConnectionPool) :=
  let ps1 := ps.initPool
  match ps1.available.getLast? with
  | some c => .ok (c, { ps1 with available := ps1.available.dropLast })
  | none =>
    if ps1.available.length < ps1.maxConnections then
      .ok (ps1.nextId,
        { ps1 with nextId := ps1.nextId + 1, openCount := ps1.openCount + 1 })
    else
      .error (.databaseError "No available connections in the pool")

/-- `ConnectionPool.release` (lines 92–104): if the idle list is below
capacity the connection is pushed back (this path cannot fail);
otherwise the connection is closed — `closeConnection` rejects with
`DatabaseError('Failed to close connection: ' + err.message)` on a close
failure, which `release` catches and wraps again with the same prefix.
`fault` is the engine-reported close failure, if any. -/
def ConnectionPool.release (ps : ConnectionPool) (conn : Nat)
    (fault : Option String) : Except String ConnectionPool :=
  if ps.available.length < ps.maxConnections then
    .ok { ps with available := ps.available ++ [conn] }
  else
    match fault with
    | some m =>
      .error ("Failed to close connection: " ++ ("Failed to close connection: " ++ m))
    | none => .ok { ps with openCount := ps.openCount - 1 }

/-- Result of `withConnection`: the surfaced outcome, the pool state
left behind, and (instrumentation) whether a release was attempted after
a successful acquire. -/
structure WcResult (α : Type) where
  result : Except JsError α
  pool : ConnectionPool
  releaseAttempted : Bool

/-- The rethrow at lines 139–144 of ConnectionPool.ts: a
`DatabaseError` is rethrown as-is, any other operation error is wrapped
as `new DatabaseError(operationError.message)`. -/
def rethrowOpError : JsError → JsError
  | .databaseError m => .databaseError m
  | e => .databaseError e.message

/-- `ConnectionPool.withConnection` (lines 118–151): acquires (failure
propagates, nothing to release); runs the operation, capturing its error
if it throws; always attempts release; on a release failure throws the
operation's original error if there was one, else
`DatabaseError('Failed to close connection: ' + message)`; then rethrows
a captured operation error (wrapped unless already a `DatabaseError`);
finally, a successfully resolved `undefined` result is turned into
`DatabaseError('Operation failed without returning a result')`.

`opOutcome` is the operation's settled outcome (`.ok none` = resolved
with `undefined`), `releaseFault` the engine-reported close failure, if
any, should the release need to close the connection. -/
def ConnectionPool.withConnection (ps : ConnectionPool) {α : Type}
    (opOutcome : Except JsError (Option α)) (releaseFault : Option String) :
    WcResult α :=
  match ps.acquire with
  | .error e => ⟨.error e, ps.initPool, false⟩
  | .ok (conn, ps1) =>
    let operationError : Option JsError :=
      match opOutcome with | .error e => some e | .ok _ => none
    let operationResult : Option α :=
      match opOutcome with | .ok v => v | .error _ => none
    match ps1.release conn releaseFault with
    | .error relMsg =>
      match operationError with
      | some e => ⟨.error e, ps1, true⟩
      | none =>
        ⟨.error (.databaseError ("Failed to close connection: " ++ relMsg)), ps1, true⟩
    | .ok ps2 =>
      match operationError with
      | some e => ⟨.error (rethrowOpError e), ps2, true⟩
      | none =>
        match operationResult with
        | none =>
          ⟨.error (.databaseError "Operation failed without returning a result"), ps2, true⟩
        | some v => ⟨.ok v, ps2, true⟩

/-! ## Manager lifecycle: init / backup / restore
(`src/db/DatabaseManager.ts`)

For the backup round-trip claim the relevant state is the storage file's
contents, the manager's `this.db` handle, and the backup files.  The
handle is `none` while `this.db === null`, and `some b` for a held
handle whose underlying SQLite connection is open iff `b = true`
(`db.close()` closes the connection but does not null the field). -/

structure DbManager where
  file : Table
  db : Option Bool
  backups : List Table
  deriving DecidableEq

/-- `DatabaseManager.init` (lines 42–55): `if (this.db) return;` — a
non-null handle (open **or closed**) short-circuits the whole method;
otherwise the pool is initialized, a connection acquired into `this.db`,
and the schema set up (`CREATE TABLE IF NOT EXISTS`, which does not
change existing rows). -/
def DbManager.init (m : DbManager) : DbManager :=
  match m.db with
  | some _ => m
  | none => { m with db := some true }

/-- `DatabaseManager.addTriple` → `addTriples` through the held handle:
fails with `DatabaseError('Database not initialized')` when `this.db` is
null; on a closed handle SQLite reports `SQLITE_MISUSE`, which
`addTriples` wraps; otherwise the insert loop of
`DatabaseManager.addTriples` runs against the file. -/
def DbManager.addTripleM (m : DbManager) (t : Triple) (g : String) :
    DbManager × Option JsError :=
  match m.db with
  | none => (m, some (.databaseError "Database not initialized"))
  | some isOpen =>
    if isOpen then
      let (tab, e) := DatabaseManager.addTriples m.file [t] g
      ({ m with file := tab }, e)
    else
      (m, some (.databaseError
        "Failed to add triple: SQLITE_MISUSE: Database handle is closed"))

/-- `DatabaseManager.backup` (lines 102–154) in the configuration of the
round-trip claim (file-backed path, backups enabled, fewer than
`maxBackups` existing backups, no I/O fault): streams a byte-for-byte
copy of the storage file into a new timestamped backup file. -/
def DbManager.backupM (m : DbManager) : DbManager :=
  { m with backups := m.backups ++ [m.file] }

/-- `DatabaseManager.restoreFromBackup` (lines 156–176): requires a
non-null handle; closes the live connection (`this.db.close(...)` —
`this.db` itself stays set, now pointing at a closed handle); overwrites
the storage file with the backup's contents (`fs.copyFileSync`); then
calls `this.init()`. -/
def DbManager.restoreFromBackup (m : DbManager) (b : Table) :
    DbManager × Option JsError :=
  match m.db with
  | none => (m, some (.databaseError "Database not initialized"))
  | some _ =>
    let m1 : DbManager := { m with db := some false }
    let m2 : DbManager := { m1 with file := b }
    (m2.init, none)

/-- `DatabaseManager.query` through the held handle: `DatabaseError
('Database not initialized')` on a null handle; on a closed handle the
engine reports `SQLITE_MISUSE`, which `query` wraps as
`Query failed: ...`; otherwise the filter of `DatabaseManager.query`
runs against the file. -/
def DbManager.queryM (m : DbManager) (s p o : Option String) (g : String) :
    Except JsError (List Row) :=
  match m.db with
  | none => .error (.databaseError "Database not initialized")
  | some isOpen =>
    if isOpen then DatabaseManager.query m.file s p o g none
    else .error (.databaseError "Query failed: SQLITE_MISUSE: Database handle is closed")

/-! ## Concrete data used by counterexamples and witnesses -/

/-- The spec's concrete scenario triple (§8). -/
def tAlice : Triple :=
  { subject := "http://ex.org/a", predicate := "http://ex.org/name",
    object := "\x22Alice\x22", graph := none }

/-- A second triple with the same subject and predicate but a different
object (hence a different primary key). -/
def tAlice2 : Triple :=
  { subject := "http://ex.org/a", predicate := "http://ex.org/name",
    object := "\x22Alice B.\x22", graph := none }

/-- A stored row used by the query counterexample. -/
def rowA : Row :=
  { subject := "http://ex.org/a", predicate := "http://ex.org/name",
    object := "\x22Alice\x22", graph := "default" }

/-! ## Shared lemmas -/

/-- Unfolding: a batch whose head collides with an existing row fails at
once, leaving the table as it was. -/
theorem addTriples_cons_mem {t : Triple} {st : Table} {g : String}
    (rest : List Triple) (hm : t.toRow g ∈ st) :
    DatabaseManager.addTriples st (t :: rest) g =
      (st, some (.databaseError ("Failed to add triple: " ++ uniqueViolationMsg))) := by
  rw [DatabaseManager.addTriples]
  simp [sqliteInsert, hm]

/-- Unfolding: a fresh head row is appended and the loop continues with
the rest of the batch. -/
theorem addTriples_cons_not_mem {t : Triple} {st : Table} {g : String}
    (rest : List Triple) (hm : t.toRow g ∉ st) :
    DatabaseManager.addTriples st (t :: rest) g =
      DatabaseManager.addTriples (st ++ [t.toRow g]) rest g := by
  rw [DatabaseManager.addTriples]
  simp [sqliteInsert, hm]

/-- Every error `DatabaseManager.addTriples` reports is a
`DatabaseError` (the loop wraps the engine message at line 200). -/
theorem addTriples_error_wrapped (ts : List Triple) (st : Table) (g : String)
    (e : JsError) (h : (DatabaseManager.addTriples st ts g).2 = some e) :
    e.isWrapped = true := by
  induction ts generalizing st with
  | nil => simp [DatabaseManager.addTriples] at h
  | cons t rest ih =>
    by_cases hm : t.toRow g ∈ st
    · rw [addTriples_cons_mem rest hm] at h
      simp at h
      rw [← h]
      rfl
    · rw [addTriples_cons_not_mem rest hm] at h
      exact ih _ h

/-- On a success, `addTriples` has appended exactly the batch's rows, in
order. -/
theorem addTriples_ok_append (ts : List Triple) (st : Table) (g : String)
    (h : (DatabaseManager.addTriples st ts g).2 = none) :
    (DatabaseManager.addTriples st ts g).1 = st ++ ts.map (fun t => t.toRow g) := by
  induction ts generalizing st with
  | nil => simp [DatabaseManager.addTriples]
  | cons t rest ih =>
    by_cases hm : t.toRow g ∈ st
    · rw [addTriples_cons_mem rest hm] at h
      simp at h
    · rw [addTriples_cons_not_mem rest hm] at h ⊢
      rw [ih _ h]
      simp

/-- On a failure, `addTriples` has appended the rows of a proper prefix
of the batch (the inserts already auto-committed before the failing
one). -/
theorem addTriples_error_take (ts : List Triple) (st : Table) (g : String)
    (e : JsError) (h : (DatabaseManager.addTriples st ts g).2 = some e) :
    ∃ k, k < ts.length ∧
      (DatabaseManager.addTriples st ts g).1 =
        st ++ (ts.take k).map (fun t => t.toRow g) := by
  induction ts generalizing st with
  | nil => simp [DatabaseManager.addTriples] at h
  | cons t rest ih =>
    by_cases hm : t.toRow g ∈ st
    · rw [addTriples_cons_mem rest hm]
      exact ⟨0, by simp, by simp⟩
    · rw [addTriples_cons_not_mem rest hm] at h ⊢
      obtain ⟨k, hk, heq⟩ := ih _ h
      refine ⟨k + 1, by simpa using Nat.succ_lt_succ hk, ?_⟩
      rw [heq]
      simp

/-- A non-empty string is not `isEmpty`. -/
theorem isEmpty_false_of_ne {s : String} (h : s ≠ "") : s.isEmpty = false := by
  cases hb : s.isEmpty with
  | false => rfl
  | true => exact absurd ((String.isEmpty_iff s).mp hb) h

/-! ## C1 — duplicate insert -/

/-- Claim C1 as stated is false: inserting the spec's scenario triple
twice through `addTriples` makes the second call fail with a
`DatabaseError` (the plain `INSERT` hits the composite primary key), so
the duplicate insert is *not* treated as a benign no-op. -/
theorem C1_counterexample :
    DatabaseManager.addTriples [] [tAlice] "default" =
      ([tAlice.toRow "default"], none) ∧
    DatabaseManager.addTriples [tAlice.toRow "default"] [tAlice] "default" =
      ([tAlice.toRow "default"],
        some (.databaseError ("Failed to add triple: " ++ uniqueViolationMsg))) := by
  constructor
  · rfl
  · rfl

/-- C1 amended: the first insert of a fresh triple succeeds; the second,
identical insert fails with a user-visible
`DatabaseError('Failed to add triple: SQLITE_CONSTRAINT: ...')` and
leaves the table unchanged, so exactly one matching row remains and
`query` (with all three fields supplied, non-empty) returns it once. -/
theorem C1_amended (t : Triple) (g : String) (st : Table)
    (hrow : t.toRow g ∉ st)
    (hs : t.subject ≠ "") (hp : t.predicate ≠ "") (ho : t.object ≠ "") :
    DatabaseManager.addTriples st [t] g = (st ++ [t.toRow g], none) ∧
    DatabaseManager.addTriples (st ++ [t.toRow g]) [t] g =
      (st ++ [t.toRow g],
        some (.databaseError ("Failed to add triple: " ++ uniqueViolationMsg))) ∧
    (st ++ [t.toRow g]).count (t.toRow g) = 1 ∧
    DatabaseManager.query (st ++ [t.toRow g]) (some t.subject) (some t.predicate)
        (some t.object) g none = .ok [t.toRow g] := by
  refine ⟨?_, ?_, ?_, ?_⟩
  · rw [addTriples_cons_not_mem [] hrow]
    rfl
  · exact addTriples_cons_mem [] (by simp)
  · rw [List.count_append]
    rw [List.count_eq_zero.mpr hrow]
    simp
  · have hflt : queryFilter st (some t.subject) (some t.predicate)
        (some t.object) g = [] := by
      rw [queryFilter, List.filter_eq_nil_iff]
      intro r hr hpred
      have hreq : r = t.toRow g := by
        have hb : ((r.graph == g) && (r.subject == t.subject)
            && (r.predicate == t.predicate) && (r.object == t.object)) = true := by
          simpa [truthyMatch, isEmpty_false_of_ne hs, isEmpty_false_of_ne hp,
            isEmpty_false_of_ne ho] using hpred
        simp only [Bool.and_eq_true, beq_iff_eq] at hb
        obtain ⟨⟨⟨hg, h1⟩, h2⟩, h3⟩ := hb
        cases r
        simp only [Triple.toRow, Row.mk.injEq]
        exact ⟨h1, h2, h3, hg⟩
      exact hrow (hreq ▸ hr)
    have hone : queryFilter [t.toRow g] (some t.subject) (some t.predicate)
        (some t.object) g = [t.toRow g] := by
      simp [queryFilter, truthyMatch, isEmpty_false_of_ne hs,
        isEmpty_false_of_ne hp, isEmpty_false_of_ne ho, Triple.toRow]
    show Except.ok (queryFilter (st ++ [t.toRow g]) _ _ _ g) = _
    rw [queryFilter, List.filter_append, ← queryFilter, ← queryFilter, hflt, hone]
    rfl

/-- Witness for C1: the amended behaviour at the concrete scenario
triple, starting from the empty table. -/
theorem C1_witness :
    DatabaseManager.addTriples [] [tAlice] "default" =
      ([] ++ [tAlice.toRow "default"], none) ∧
    DatabaseManager.addTriples ([] ++ [tAlice.toRow "default"]) [tAlice] "default" =
      ([] ++ [tAlice.toRow "default"],
        some (.databaseError ("Failed to add triple: " ++ uniqueViolationMsg))) ∧
    ([] ++ [tAlice.toRow "default"]).count (tAlice.toRow "default") = 1 ∧
    DatabaseManager.query ([] ++ [tAlice.toRow "default"]) (some tAlice.subject)
        (some tAlice.predicate) (some tAlice.object) "default" none =
      .ok [tAlice.toRow "default"] :=
  C1_amended tAlice "default" [] (by simp) (by decide) (by decide) (by decide)

/-! ## C4 — no transaction around a batch -/

/-- Claim C4 as stated is false: the batch `[tAlice, tAlice]` from the
empty table fails partway (the second insert violates the primary key),
yet the first insert remains in storage — the loop runs each `stmt.run`
in SQLite's autocommit mode with no explicit transaction, so the failed
call leaves a partial add behind. -/
theorem C4_counterexample :
    (DatabaseManager.addTriples [] [tAlice, tAlice] "default").2.isSome = true ∧
    (DatabaseManager.addTriples [] [tAlice, tAlice] "default").1 =
      [tAlice.toRow "default"] := by
  constructor
  · rfl
  · rfl

/-- C4 amended: each insertion of the batch is issued and auto-committed
individually; on success the table gains exactly the batch's rows in
order, but when a hard failure occurs partway the rows inserted before
the failing one remain in storage (only some proper prefix of the batch
was added — there is no enclosing transaction to roll them back). -/
theorem C4_amended (st : Table) (ts : List Triple) (g : String) :
    ((DatabaseManager.addTriples st ts g).2 = none →
      (DatabaseManager.addTriples st ts g).1 =
        st ++ ts.map (fun t => t.toRow g)) ∧
    (∀ e, (DatabaseManager.addTriples st ts g).2 = some e →
      ∃ k, k < ts.length ∧
        (DatabaseManager.addTriples st ts g).1 =
          st ++ (ts.take k).map (fun t => t.toRow g)) :=
  ⟨addTriples_ok_append ts st g, fun e he => addTriples_error_take ts st g e he⟩

/-- Witness for C4: the amended statement at the failing concrete batch
`[tAlice, tAlice]`, plus the discharged instances: the call fails and
the retained table is the one-element proper prefix of the batch. -/
theorem C4_witness :
    (∃ k, k < ([tAlice, tAlice] : List Triple).length ∧
      (DatabaseManager.addTriples [] [tAlice, tAlice] "default").1 =
        [] ++ (([tAlice, tAlice] : List Triple).take k).map (fun t => t.toRow "default")) :=
  (C4_amended [] [tAlice, tAlice] "default").2
    (.databaseError ("Failed to add triple: " ++ uniqueViolationMsg)) (by rfl)

/-! ## C7 — query filter semantics -/

/-- Claim C7 as stated is false: with the one-row table `[rowA]`, the
call `query(subject='', graph='default')` returns the row — the code's
`if (subject)` treats the provided empty string as falsy and omits the
filter — whereas the claimed exact-match semantics (`specQuery`) returns
nothing. -/
theorem C7_counterexample :
    DatabaseManager.query [rowA] (some "") none none "default" none =
      .ok [rowA] ∧
    specQuery [rowA] (some "") none none "default" = [] ∧
    DatabaseManager.query [rowA] (some "") none none "default" none ≠
      .ok (specQuery [rowA] (some "") none none "default") := by
  refine ⟨by rfl, by rfl, ?_⟩
  intro h
  rw [show specQuery [rowA] (some "") none none "default" = [] from rfl] at h
  exact absurd (Except.ok.inj h) (List.cons_ne_nil rowA [])

/-- The normalization JS truthiness induces on each of the three
optional parameters: a provided *empty* string behaves exactly like an
absent parameter (both are falsy at `if (subject)` etc.), while any
other provided string is kept. -/
def normParam : Option String → Option String
  | none => none
  | some s => if s.isEmpty then none else some s

/-- Per-column: the condition the code builds equals the spec's
exact-match condition at the truthiness-normalized parameter. -/
theorem truthyMatch_eq_norm (q : Option String) (v : String) :
    truthyMatch q v =
      match normParam q with | none => true | some x => v == x := by
  match q with
  | none => rfl
  | some s =>
    cases hs : s.isEmpty with
    | true => simp [truthyMatch, normParam, hs]
    | false => simp [truthyMatch, normParam, hs]

/-- C7 amended: for every table state and every call, `query` returns
exactly the rows the spec's exact-match filter (`specQuery`) selects at
the truthiness-normalized parameters — `graph` always filters exactly, a
provided non-empty subject / predicate / object filters exactly, and an
absent parameter *or a provided empty string* (normalized to absent)
imposes no filter.  This covers an empty string in any of the three
positions, alone or combined. -/
theorem C7_amended (st : Table) (s p o : Option String) (g : String) :
    DatabaseManager.query st s p o g none =
      .ok (specQuery st (normParam s) (normParam p) (normParam o) g) := by
  show Except.ok (queryFilter st s p o g) = _
  congr 1
  unfold queryFilter specQuery
  apply List.filter_congr
  intro r _
  rw [truthyMatch_eq_norm s r.subject, truthyMatch_eq_norm p r.predicate,
    truthyMatch_eq_norm o r.object]

/-- Witness for C7: the amended characterization at a concrete call
providing a non-empty subject together with *empty* predicate and
object parameters — the corner the original claim got wrong. -/
theorem C7_witness :
    DatabaseManager.query [rowA] (some "http://ex.org/a") (some "") (some "")
        "default" none =
      .ok (specQuery [rowA] (normParam (some "http://ex.org/a"))
        (normParam (some "")) (normParam (some "")) "default") :=
  C7_amended [rowA] (some "http://ex.org/a") (some "") (some "") "default"

/-! ## C5 — validate-then-commit in the façade -/

/-- `validateTriple` only ever produces a `ValidationError`. -/
theorem validateTriple_shape (validUri validLit : String → Bool) (t : Triple)
    (e : JsError) (h : validateTriple validUri validLit t = some e) :
    ∃ m, e = .validationError m := by
  unfold validateTriple at h
  split at h
  · exact ⟨_, (Option.some.inj h).symm⟩
  · split at h
    · exact ⟨_, (Option.some.inj h).symm⟩
    · split at h
      · exact ⟨_, (Option.some.inj h).symm⟩
      · exact absurd h (by simp)

/-- If some triple of the batch fails validation, then walking the batch
in order hits a (first) validation failure. -/
theorem firstValidationError_isSome (validUri validLit : String → Bool)
    (ts : List Triple) (t : Triple) (ht : t ∈ ts)
    (h : (validateTriple validUri validLit t).isSome = true) :
    (firstValidationError validUri validLit ts).isSome = true := by
  induction ts with
  | nil => cases ht
  | cons t0 rest ih =>
    rw [firstValidationError]
    rcases h0 : validateTriple validUri validLit t0 with _ | e0
    · rcases List.mem_cons.mp ht with rfl | hmem
      · rw [h0] at h
        simp at h
      · exact ih hmem
    · rfl

/-- C5: whenever a batch handed to `GraphManager.addTriples` contains an
invalid triple — one the URI/literal validators reject — the call fails
with a `ValidationError` and the stored table is completely unchanged:
`triples.forEach(validateTriple)` runs before `db.addTriples`, so no
connection is touched and nothing is written. -/
theorem C5_theorem (validUri validLit : String → Bool) (st : Table)
    (ts : List Triple) (g : String) (t : Triple) (ht : t ∈ ts)
    (hbad : (validateTriple validUri validLit t).isSome = true) :
    (GraphManager.addTriples validUri validLit st ts g).1 = st ∧
    ∃ m, (GraphManager.addTriples validUri validLit st ts g).2 =
      some (.validationError m) := by
  have hfirst : (firstValidationError validUri validLit ts).isSome = true :=
    firstValidationError_isSome validUri validLit ts t ht hbad
  rcases he : firstValidationError validUri validLit ts with _ | e
  · rw [he] at hfirst
    simp at hfirst
  · have hshape : ∃ m, e = .validationError m := by
      clear hfirst
      induction ts with
      | nil => simp [firstValidationError] at he
      | cons t0 rest ih =>
        rw [firstValidationError] at he
        rcases h0 : validateTriple validUri validLit t0 with _ | e0
        · rw [h0] at he
          exact ih (by cases List.mem_cons.mp ht with
            | inl hh => exact absurd (hh ▸ h0) (by rw [hh] at hbad; simp_all)
            | inr hh => exact hh) he
        · rw [h0] at he
          rcases validateTriple_shape validUri validLit t0 e0 h0 with ⟨m, rfl⟩
          exact ⟨m, (Option.some.inj he).symm⟩
    rcases hshape with ⟨m, rfl⟩
    constructor
    · show (GraphManager.addTriples validUri validLit st ts g).1 = st
      unfold GraphManager.addTriples
      rw [he]
    · refine ⟨m, ?_⟩
      unfold GraphManager.addTriples
      rw [he]

/-- A URI validator for concrete witnesses: accepts strings beginning
`http`.  (The repository's `isValidUri` is an RFC 3986 regex; any
boolean validator instantiates the parameterized theorems.) -/
def uriOk (s : String) : Bool :=
  match s.data with
  | 'h' :: 't' :: 't' :: 'p' :: _ => true
  | _ => false

/-- A literal validator for concrete witnesses: accepts quoted
strings. -/
def litOk (s : String) : Bool :=
  match s.data with
  | '\x22' :: _ => true
  | _ => false

/-- A triple whose object is neither a URI nor a literal under
`uriOk`/`litOk`. -/
def tBad : Triple :=
  { subject := "http://ex.org/b", predicate := "http://ex.org/name",
    object := "not a literal", graph := none }

/-- Witness for C5: the batch `[tAlice, tBad]` (valid then invalid)
against the empty table fails with a `ValidationError` and writes
nothing. -/
theorem C5_witness :
    (GraphManager.addTriples uriOk litOk [] [tAlice, tBad] "default").1 = [] ∧
    ∃ m, (GraphManager.addTriples uriOk litOk [] [tAlice, tBad] "default").2 =
      some (.validationError m) :=
  C5_theorem uriOk litOk [] [tAlice, tBad] "default" tBad (by simp) (by decide)

/-! ## C6 — queryGraphs -/

/-- Folding the graph-collection step of `queryGraphs` over triples
whose `graph` field is absent never adds anything. -/
theorem foldl_collectGraph_none (l : List Triple) (acc : List String)
    (hl : ∀ t ∈ l, t.graph = none) : l.foldl collectGraph acc = acc := by
  induction l generalizing acc with
  | nil => rfl
  | cons t rest ih =>
    rw [List.foldl_cons]
    have ht : t.graph = none := hl t (List.mem_cons_self t rest)
    have hstep : collectGraph acc t = acc := by
      unfold collectGraph
      rw [ht]
    rw [hstep]
    exact ih acc (fun t' ht' => hl t' (List.mem_cons_of_mem t ht'))

/-- `queryGraphs` returns the empty list on every table state: it scans
only the `'default'` graph and the rows it gets back carry no `graph`
column, so no graph name is ever collected. -/
theorem queryGraphs_eq_nil (st : Table) : GraphManager.queryGraphs st = [] := by
  unfold GraphManager.queryGraphs
  apply foldl_collectGraph_none
  intro t ht
  unfold DatabaseManager.getTriples at ht
  simp only [] at ht
  obtain ⟨r, _, rfl⟩ := List.mem_map.mp ht
  rfl

/-- C6 is a code bug: after inserting the scenario triple into graph
`"people"` the row is stored, yet `queryGraphs()` returns `[]` — it
neither includes `"people"` nor any other graph, on any table state —
because `getTriples()` is called without a graph argument (so only
`'default'` is scanned) and its `SELECT` omits the `graph` column (so
`triple.graph` is always undefined in the collection loop). -/
theorem C6_bug :
    (DatabaseManager.addTriples [] [tAlice] "people").1 =
      [tAlice.toRow "people"] ∧
    GraphManager.queryGraphs [tAlice.toRow "people"] = [] ∧
    "people" ∉ GraphManager.queryGraphs [tAlice.toRow "people"] ∧
    (∀ st : Table, GraphManager.queryGraphs st = []) :=
  ⟨rfl, queryGraphs_eq_nil _, by simp [queryGraphs_eq_nil], queryGraphs_eq_nil⟩

/-! ## C8 — error wrapping across the storage layer -/

/-- Claim C8 as stated is false: an engine failure during `clearAll` (or
`getTriples`) is surfaced as the raw engine error object, not wrapped in
the store's `DatabaseError` type — those two callbacks call
`reject(err)` directly. -/
theorem C8_counterexample :
    DatabaseManager.clearAll [] (some "SQLITE_IOERR: disk I/O error") =
      .error (.engineError "SQLITE_IOERR: disk I/O error") ∧
    (JsError.engineError "SQLITE_IOERR: disk I/O error").isWrapped = false ∧
    DatabaseManager.getTriples [] "default" (some "SQLITE_IOERR: disk I/O error") =
      .error (.engineError "SQLITE_IOERR: disk I/O error") :=
  ⟨rfl, rfl, rfl⟩

/-- C8 amended: `addTriples`, `query` and `deleteGraph` wrap every
engine failure into a `DatabaseError` carrying the underlying message,
and every operation signals an engine failure as an error rather than
substituting an empty result; but `clearAll` and `getTriples` propagate
the raw engine error unwrapped. -/
theorem C8_amended (st : Table) (ts : List Triple) (s p o : Option String)
    (g : String) (m : String) :
    DatabaseManager.query st s p o g (some m) =
      .error (.databaseError ("Query failed: " ++ m)) ∧
    DatabaseManager.deleteGraph st g (some m) =
      .error (.databaseError ("Failed to delete graph: " ++ m)) ∧
    (∀ e, (DatabaseManager.addTriples st ts g).2 = some e → e.isWrapped = true) ∧
    DatabaseManager.clearAll st (some m) = .error (.engineError m) ∧
    DatabaseManager.getTriples st g (some m) = .error (.engineError m) :=
  ⟨rfl, rfl, fun e he => addTriples_error_wrapped ts st g e he, rfl, rfl⟩

/-- Witness for C8: the amended statement at a concrete table, batch and
engine message. -/
theorem C8_witness :
    DatabaseManager.query [] none none none "default" (some "boom") =
      .error (.databaseError ("Query failed: " ++ "boom")) ∧
    DatabaseManager.deleteGraph [] "default" (some "boom") =
      .error (.databaseError ("Failed to delete graph: " ++ "boom")) ∧
    (∀ e, (DatabaseManager.addTriples [] [tAlice, tAlice] "default").2 = some e →
      e.isWrapped = true) ∧
    DatabaseManager.clearAll [] (some "boom") = .error (.engineError "boom") ∧
    DatabaseManager.getTriples [] "default" (some "boom") =
      .error (.engineError "boom") :=
  C8_amended [] [tAlice, tAlice] none none none "default" "boom"

/-! ## C2 — backup round-trip through restore -/

/-- The manager state after the round-trip `init`, `addTriple(T)`,
`backup()`, `addTriple(T2)`, `restoreFromBackup(latest backup)` on a
fresh file-backed store. -/
def restoreScenario : DbManager :=
  let m0 := DbManager.init { file := [], db := none, backups := [] }
  let m1 := (m0.addTripleM tAlice "default").1
  let m2 := m1.backupM
  let m3 := (m2.addTripleM tAlice2 "default").1
  (m3.restoreFromBackup (m2.backups.getLast?.getD [])).1

/-- C2 is a code bug: running the round-trip `addTriple(T)`, `backup()`,
`addTriple(T2)`, `restoreFromBackup(latest)` does copy the backup (which
holds T and not T2) over the storage file, but `restoreFromBackup` never
nulls `this.db` after closing it, so the `init()` it calls returns
immediately (`if (this.db) return`) without reopening a connection or
reinitializing pool and schema; the subsequent `query` then runs on the
closed handle and fails instead of returning T. -/
theorem C2_bug :
    restoreScenario.file = [tAlice.toRow "default"] ∧
    restoreScenario.db = some false ∧
    DbManager.queryM restoreScenario none none none "default" =
      .error (.databaseError "Query failed: SQLITE_MISUSE: Database handle is closed") :=
  ⟨rfl, rfl, rfl⟩

/-! ## C3 — the pool bound -/

/-- The pool state after an `acquire`, for stating concrete acquire
chains (the state is unchanged when `acquire` rejects). -/
def acquiredState (ps : ConnectionPool) : ConnectionPool :=
  match ps.acquire with
  | .ok (_, ps') => ps'
  | .error _ => ps

/-- Whether `acquire` succeeded. -/
def acquireOk (ps : ConnectionPool) : Bool :=
  match ps.acquire with
  | .ok _ => true
  | .error _ => false

/-- Claim C3 as stated is false: with `maxConnections = 2` and an
initialized pool (2 eagerly opened connections), three acquires with no
release in between all succeed — the third opens a brand-new third
connection instead of failing with the pool-exhausted error, because
`acquire` compares the *idle-list length* (zero at that point), not the
total opened count, against the maximum.  Three connections are then
simultaneously open, exceeding the configured bound of 2. -/
theorem C3_counterexample :
    let p0 := (mkPool (some 2)).initPool
    let p1 := acquiredState p0
    let p2 := acquiredState p1
    let p3 := acquiredState p2
    p0.maxConnections = 2 ∧ p0.openCount = 2 ∧
    acquireOk p0 = true ∧ acquireOk p1 = true ∧ acquireOk p2 = true ∧
    p3.openCount = 3 := by
  exact ⟨rfl, rfl, rfl, rfl, rfl, rfl⟩

/-- `initialize` is a no-op on an already-initialized pool. -/
theorem initPool_of_initialized (ps : ConnectionPool)
    (h : ps.initialized = true) : ps.initPool = ps := by
  unfold ConnectionPool.initPool
  rw [h]
  simp

/-- `initialize` preserves the configured maximum. -/
theorem initPool_max (ps : ConnectionPool) :
    ps.initPool.maxConnections = ps.maxConnections := by
  unfold ConnectionPool.initPool
  split
  · rfl
  · rfl

/-- C3 amended: on an initialized pool, `acquire` pops the most recently
returned idle connection when one exists (leaving the open count
unchanged); when the idle list is empty it compares that empty list's
length — zero — to `maxConnections`, so for any `maxConnections ≥ 1` it
opens a brand-new connection unconditionally, growing the open count
past any bound; the pool-exhausted rejection is reachable only with
`maxConnections = 0`, which the constructor's `|| 10` defaulting rules
out.  Callers are never queued: `acquire` always returns or rejects at
once. -/
theorem C3_amended (ps : ConnectionPool) (h : ps.initialized = true) :
    (∀ c, ps.available.getLast? = some c →
      ps.acquire = .ok (c, { ps with available := ps.available.dropLast })) ∧
    (ps.available = [] → 1 ≤ ps.maxConnections →
      ps.acquire = .ok (ps.nextId,
        { ps with nextId := ps.nextId + 1, openCount := ps.openCount + 1 })) ∧
    (ps.available = [] → ps.maxConnections = 0 →
      ps.acquire = .error (.databaseError "No available connections in the pool")) ∧
    (∀ o, 1 ≤ (mkPool o).maxConnections) := by
  refine ⟨?_, ?_, ?_, ?_⟩
  · intro c hc
    unfold ConnectionPool.acquire
    rw [initPool_of_initialized ps h]
    dsimp only
    rw [hc]
  · intro hav hmax
    unfold ConnectionPool.acquire
    rw [initPool_of_initialized ps h]
    dsimp only
    rw [hav, show ([] : List Nat).getLast? = none from rfl]
    dsimp only
    rw [if_pos (by simp only [List.length_nil]; exact hmax)]
  · intro hav hmax
    unfold ConnectionPool.acquire
    rw [initPool_of_initialized ps h]
    dsimp only
    rw [hav, show ([] : List Nat).getLast? = none from rfl]
    dsimp only
    rw [if_neg (by simp only [List.length_nil]; omega)]
  · intro o
    match o with
    | none => exact by decide
    | some 0 => exact by decide
    | some (n + 1) => exact Nat.succ_le_succ (Nat.zero_le n)

/-- Witness for C3: the amended create-branch behaviour at the concrete
pool state reached after the two idle connections were checked out
(idle list empty, two connections open, maximum 2): a third connection
is opened. -/
theorem C3_witness :
    ConnectionPool.acquire ⟨2, [], true, 2, 2⟩ =
      .ok (2, ⟨2, [], true, 3, 3⟩) :=
  (C3_amended ⟨2, [], true, 2, 2⟩ rfl).2.1 rfl (by decide)

/-! ## C9 / C10 — withConnection -/

/-- On a pool with a positive maximum, `acquire` always succeeds: either
an idle connection exists (after auto-initialization at least
`min(3, max) ≥ 1` were opened) or the empty idle list's length, zero, is
below the maximum. -/
theorem acquire_ok_of_pos (ps : ConnectionPool) (h : 1 ≤ ps.maxConnections) :
    ∃ c ps', ps.acquire = .ok (c, ps') := by
  unfold ConnectionPool.acquire
  dsimp only
  rcases hl : ps.initPool.available.getLast? with _ | c
  · have hmax1 : ps.initPool.maxConnections = ps.maxConnections := initPool_max ps
    have hnil : ps.initPool.available = [] := by
      cases hav : ps.initPool.available with
      | nil => rfl
      | cons a l =>
        rw [hav] at hl
        simp [List.getLast?] at hl
    refine ⟨ps.initPool.nextId, { ps.initPool with nextId := ps.initPool.nextId + 1, openCount := ps.initPool.openCount + 1 }, ?_⟩
    dsimp only
    rw [if_pos (by rw [hnil, hmax1]; simpa using h)]
  · exact ⟨c, { ps.initPool with available := ps.initPool.available.dropLast }, rfl⟩


/-- `release` with no close fault never fails: the push path cannot
fail, and the close path succeeds when the engine reports no error. -/
theorem release_none_ok (ps : ConnectionPool) (c : Nat) :
    ∃ ps', ps.release c none = .ok ps' := by
  unfold ConnectionPool.release
  split
  · exact ⟨_, rfl⟩
  · exact ⟨_, rfl⟩

/-- C9: on a pool with a positive maximum, `withConnection` always
attempts the release after a successful acquire, and the error priority
rule holds — a failed operation's error is the one surfaced (verbatim,
or rewrapped as a `DatabaseError` with the same message) even when the
release also fails, while a release failure after a successful operation
surfaces as a `DatabaseError('Failed to close connection: ...')`. -/
theorem C9_theorem {α : Type} (ps : ConnectionPool)
    (opOutcome : Except JsError (Option α)) (releaseFault : Option String)
    (hmax : 1 ≤ ps.maxConnections) :
    (ps.withConnection opOutcome releaseFault).releaseAttempted = true ∧
    (∀ e, opOutcome = .error e →
      (ps.withConnection opOutcome releaseFault).result = .error e ∨
      (ps.withConnection opOutcome releaseFault).result =
        .error (.databaseError e.message)) ∧
    (∀ v conn ps1 relMsg, ps.acquire = .ok (conn, ps1) → opOutcome = .ok v →
      ps1.release conn releaseFault = .error relMsg →
      (ps.withConnection opOutcome releaseFault).result =
        .error (.databaseError ("Failed to close connection: " ++ relMsg))) := by
  obtain ⟨c, ps', hacq⟩ := acquire_ok_of_pos ps hmax
  refine ⟨?_, ?_, ?_⟩
  · unfold ConnectionPool.withConnection
    rw [hacq]
    dsimp only
    rcases hrel : ps'.release c releaseFault with msg | ps2
    · rcases opOutcome with e | v
      · rfl
      · rfl
    · rcases opOutcome with e | v
      · rfl
      · rcases v with _ | x
        · rfl
        · rfl
  · intro e he
    subst he
    unfold ConnectionPool.withConnection
    rw [hacq]
    dsimp only
    rcases hrel : ps'.release c releaseFault with msg | ps2
    · left
      rfl
    · rcases e with m | m | m
      · left
        rfl
      · right
        rfl
      · right
        rfl
  · intro v conn ps1 relMsg hacq2 hop hrel
    rw [hacq] at hacq2
    have hpair : c = conn ∧ ps' = ps1 := by
      have := Except.ok.inj hacq2
      exact ⟨congrArg Prod.fst this, congrArg Prod.snd this⟩
    obtain ⟨rfl, rfl⟩ := hpair
    subst hop
    unfold ConnectionPool.withConnection
    rw [hacq]
    dsimp only
    rw [hrel]

/-- Witness for C9: a pool state with `maxConnections = 1` whose idle
list is over-full (as arises when an over-bound connection created by
`acquire`'s unbounded create branch is later released concurrently), a
successfully resolved operation, and a failing close: the release is
attempted and its failure surfaces as the `DatabaseError` with the
accumulated close-failure message. -/
theorem C9_witness :
    ((⟨1, [7, 8], true, 9, 2⟩ : ConnectionPool).withConnection
        (Except.ok (some 42)) (some "boom")).result =
      .error (.databaseError ("Failed to close connection: " ++
        "Failed to close connection: Failed to close connection: boom")) :=
  (C9_theorem ⟨1, [7, 8], true, 9, 2⟩ (Except.ok (some 42)) (some "boom")
      (by decide)).2.2 (some 42) 8 ⟨1, [7], true, 9, 2⟩
    "Failed to close connection: Failed to close connection: boom" rfl rfl rfl

/-- C10: an operation that resolves successfully with `undefined` (here:
`.ok none`), with a cleanly succeeding release, is nevertheless turned
into `DatabaseError('Operation failed without returning a result')` by
the final guard of `withConnection` — a successful undefined-valued
operation is indistinguishable from a failure at this interface. -/
theorem C10_theorem {α : Type} (ps : ConnectionPool)
    (hmax : 1 ≤ ps.maxConnections) :
    (ps.withConnection (Except.ok (none : Option α)) none).result =
      .error (.databaseError "Operation failed without returning a result") ∧
    (ps.withConnection (Except.ok (none : Option α)) none).releaseAttempted = true := by
  obtain ⟨c, ps', hacq⟩ := acquire_ok_of_pos ps hmax
  obtain ⟨ps2, hrel⟩ := release_none_ok ps' c
  unfold ConnectionPool.withConnection
  rw [hacq]
  dsimp only
  rw [hrel]
  exact ⟨rfl, rfl⟩

/-- Witness for C10: the undefined-result error on a freshly initialized
two-connection pool. -/
theorem C10_witness :
    (((mkPool (some 2)).initPool).withConnection
        (Except.ok (none : Option Nat)) none).result =
      .error (.databaseError "Operation failed without returning a result") ∧
    (((mkPool (some 2)).initPool).withConnection
        (Except.ok (none : Option Nat)) none).releaseAttempted = true :=
  C10_theorem ((mkPool (some 2)).initPool) (by decide)
